import Mathlib

/-!
Verification of the odfdr-installer CLI (src/main.go) against its
natural-language specification.

The program is a linear orchestration of external command invocations
(`oc`, `jq`) plus local file writes.  We embed it shallowly:

* JSON values produced by `encoding/json` are the inductive `JSON`;
  Go's `map[string]any` built by `json.Unmarshal` is an association
  list with last-wins key deduplication (`goMapOf`), exactly matching
  Go map semantics for duplicate JSON keys.
* Every external effect (running a command, writing a file) is recorded
  as an `Event`; the outcome of each external call (success and, for
  reads, the bytes produced, already parsed as `Option JSON` where
  `none` stands for output that is not valid JSON) is supplied by an
  environment record, since those outcomes are outside the program.
* `addRHCEPHAuth` and `runMain` are line-by-line translations of the
  functions of the same names in src/main.go, returning their
  result/exit code together with the trace of events they performed.

Numbers inside JSON documents are never inspected by any code path of
the program, so they are carried as an opaque `Int` payload.
-/

/-- JSON values as decoded by Go's `encoding/json` into `any`. -/
inductive JSON where
  | null
  | bool (b : Bool)
  | num (n : Int)
  | str (s : String)
  | arr (elems : List JSON)
  | obj (fields : List (String × JSON))

/-- Look a key up in an association list of JSON object fields
(first match; lists produced by `goMapOf` have unique keys). -/
def lookupField (fields : List (String × JSON)) (k : String) : Option JSON :=
  (fields.find? (fun p => p.1 == k)).map (fun p => p.2)

/-- Insert a key/value pair into an association list, overwriting the
value in place when the key is already present (Go map assignment). -/
def insertField (fields : List (String × JSON)) (k : String) (v : JSON) :
    List (String × JSON) :=
  if fields.any (fun p => p.1 == k) then
    fields.map (fun p => if p.1 == k then (k, v) else p)
  else
    fields ++ [(k, v)]

/-- Build the Go map resulting from decoding a JSON object's field
list: fields are inserted in order, later duplicates overwriting
earlier ones, as `json.Unmarshal` does for `map[string]any`. -/
def goMapOf (fields : List (String × JSON)) : List (String × JSON) :=
  fields.foldl (fun m p => insertField m p.1 p.2) []

/-- Result of `json.Unmarshal(data, &m)` for `m : map[string]any`:
succeeds exactly when the payload is a JSON object.  `none` input
stands for bytes that are not valid JSON at all. -/
def unmarshalTop : Option JSON → Option (List (String × JSON))
  | some (.obj fields) => some (goMapOf fields)
  | _ => none

/-- The Go type assertion `pullSecret["auths"].(map[string]any)`:
succeeds exactly when the key is present and its value is a JSON
object, returning that object as a Go map. -/
def getAuths (ps : List (String × JSON)) : Option (List (String × JSON)) :=
  match lookupField ps "auths" with
  | some (.obj fields) => some (goMapOf fields)
  | _ => none

/-- Whether a Go interface value obtained from a map lookup compares
equal to `nil`: true for a missing key and for decoded JSON `null`. -/
def goIsNil : Option JSON → Bool
  | none => true
  | some .null => true
  | some _ => false

/-- Number of auth entries of a pull-secret payload, when the payload
is a JSON object whose `auths` field is a JSON object (the quantity
`len(auths)` computed by the source). -/
def authsCountOf (doc : Option JSON) : Option Nat :=
  match unmarshalTop doc with
  | none => none
  | some ps => (getAuths ps).map List.length

/-- Directory a file is created in: `os.WriteFile` with a relative
name and `oc registry login --to=<relative>` use the working
directory; `os.CreateTemp ""` uses the system temporary directory. -/
inductive Dir where
  | cwd
  | sysTemp
deriving DecidableEq, Repr

/-- External effects performed by the program, in order. -/
inductive Event where
  | logError
  | usageToStdout
  | checkCommands
  | createFile (dir : Dir) (name : String)
  | execLogin (username : String)
  | execGetSecret
  | execRegistryLogin
  | execJq
  | execSetSecret
  | execApply (file : String)
deriving DecidableEq, Repr

/-- The error cases of `addRHCEPHAuth`, one per `return fmt.Errorf`
site, in source order. -/
inductive AuthError where
  | getSecretFailed
  | writeSecretFileFailed
  | parseFailed
  | invalidFormat
  | noAuths
  | registryLoginFailed
  | mergeFailed
  | writeMergedFileFailed
  | updateFailed
  | reGetFailed
  | parseNewFailed
  | invalidNewFormat
  | countMismatch
deriving DecidableEq, Repr

/-- Outcomes of the external calls made by `addRHCEPHAuth`, in the
order the source performs them.  Field order: success of the first
`oc get secret` and its payload; success of writing the snapshot
file; success of `oc registry login`; success of `jq` and its merged
output; success of writing the merged file; success of `oc set data`;
success of the second `oc get secret` and its payload. -/
structure AuthEnv where
  getSecretOk : Bool
  pullSecretContent : Option JSON
  writeSecretFileOk : Bool
  registryLoginOk : Bool
  jqOk : Bool
  jqOutput : Option JSON
  writeMergedFileOk : Bool
  setDataOk : Bool
  reGetOk : Bool
  reGetContent : Option JSON

/-- Replace only the payload returned by the second `oc get secret`.
Mirroring the source, that payload is stored but never consulted. -/
def withReGetContent (env : AuthEnv) (c : Option JSON) : AuthEnv :=
  ⟨env.getSecretOk, env.pullSecretContent, env.writeSecretFileOk,
   env.registryLoginOk, env.jqOk, env.jqOutput, env.writeMergedFileOk,
   env.setDataOk, env.reGetOk, c⟩

/-- Shallow embedding of `addRHCEPHAuth` (src/main.go lines 121-210):
fetch the pull secret, snapshot it to `<cluster>-pull-secret.json`,
parse it, no-op when the `quay.io/rhceph-dev` key maps to a non-nil
value, otherwise registry-login into
`<cluster>-append-pull-secret.json`, merge with `jq`, write
`<cluster>-new-pull-secret.json`, push it with `oc set data`, re-read
the live secret (output unused), then check that the merged document's
auth count is the original count plus one. -/
def addRHCEPHAuth (clusterName : String) (env : AuthEnv) :
    Except AuthError Unit × List Event :=
  if !env.getSecretOk then (.error .getSecretFailed, [Event.execGetSecret]) else
  if !env.writeSecretFileOk then (.error .writeSecretFileFailed, [Event.execGetSecret]) else
  match unmarshalTop env.pullSecretContent with
  | none => (.error .parseFailed,
      [Event.execGetSecret, Event.createFile .cwd (clusterName ++ "-pull-secret.json")])
  | some pullSecret =>
  match getAuths pullSecret with
  | none => (.error .invalidFormat,
      [Event.execGetSecret, Event.createFile .cwd (clusterName ++ "-pull-secret.json")])
  | some auths =>
  if goIsNil (lookupField pullSecret "auths") then (.error .noAuths,
      [Event.execGetSecret, Event.createFile .cwd (clusterName ++ "-pull-secret.json")]) else
  if !(goIsNil (lookupField auths "quay.io/rhceph-dev")) then (.ok (),
      [Event.execGetSecret, Event.createFile .cwd (clusterName ++ "-pull-secret.json")]) else
  if !env.registryLoginOk then (.error .registryLoginFailed,
      [Event.execGetSecret, Event.createFile .cwd (clusterName ++ "-pull-secret.json"),
       Event.execRegistryLogin]) else
  if !env.jqOk then (.error .mergeFailed,
      [Event.execGetSecret, Event.createFile .cwd (clusterName ++ "-pull-secret.json"),
       Event.execRegistryLogin, Event.createFile .cwd (clusterName ++ "-append-pull-secret.json"),
       Event.execJq]) else
  if !env.writeMergedFileOk then (.error .writeMergedFileFailed,
      [Event.execGetSecret, Event.createFile .cwd (clusterName ++ "-pull-secret.json"),
       Event.execRegistryLogin, Event.createFile .cwd (clusterName ++ "-append-pull-secret.json"),
       Event.execJq]) else
  if !env.setDataOk then (.error .updateFailed,
      [Event.execGetSecret, Event.createFile .cwd (clusterName ++ "-pull-secret.json"),
       Event.execRegistryLogin, Event.createFile .cwd (clusterName ++ "-append-pull-secret.json"),
       Event.execJq, Event.createFile .cwd (clusterName ++ "-new-pull-secret.json"),
       Event.execSetSecret]) else
  if !env.reGetOk then (.error .reGetFailed,
      [Event.execGetSecret, Event.createFile .cwd (clusterName ++ "-pull-secret.json"),
       Event.execRegistryLogin, Event.createFile .cwd (clusterName ++ "-append-pull-secret.json"),
       Event.execJq, Event.createFile .cwd (clusterName ++ "-new-pull-secret.json"),
       Event.execSetSecret, Event.execGetSecret]) else
  match unmarshalTop env.jqOutput with
  | none => (.error .parseNewFailed,
      [Event.execGetSecret, Event.createFile .cwd (clusterName ++ "-pull-secret.json"),
       Event.execRegistryLogin, Event.createFile .cwd (clusterName ++ "-append-pull-secret.json"),
       Event.execJq, Event.createFile .cwd (clusterName ++ "-new-pull-secret.json"),
       Event.execSetSecret, Event.execGetSecret])
  | some newPullSecret =>
  match getAuths newPullSecret with
  | none => (.error .invalidNewFormat,
      [Event.execGetSecret, Event.createFile .cwd (clusterName ++ "-pull-secret.json"),
       Event.execRegistryLogin, Event.createFile .cwd (clusterName ++ "-append-pull-secret.json"),
       Event.execJq, Event.createFile .cwd (clusterName ++ "-new-pull-secret.json"),
       Event.execSetSecret, Event.execGetSecret])
  | some newAuths =>
  if newAuths.length != auths.length + 1 then (.error .countMismatch,
      [Event.execGetSecret, Event.createFile .cwd (clusterName ++ "-pull-secret.json"),
       Event.execRegistryLogin, Event.createFile .cwd (clusterName ++ "-append-pull-secret.json"),
       Event.execJq, Event.createFile .cwd (clusterName ++ "-new-pull-secret.json"),
       Event.execSetSecret, Event.execGetSecret])
  else (.ok (),
      [Event.execGetSecret, Event.createFile .cwd (clusterName ++ "-pull-secret.json"),
       Event.execRegistryLogin, Event.createFile .cwd (clusterName ++ "-append-pull-secret.json"),
       Event.execJq, Event.createFile .cwd (clusterName ++ "-new-pull-secret.json"),
       Event.execSetSecret, Event.execGetSecret])

/-- Go's `strings.Split(s, ".")` on the character list: split at every
dot, keeping empty segments, always one more segment than dots. -/
def splitDot : List Char → List (List Char)
  | [] => [[]]
  | c :: cs =>
    if c = '.' then [] :: splitDot cs
    else
      match splitDot cs with
      | [] => [[c]]
      | p :: ps => (c :: p) :: ps

/-- Go's `strings.Split(url, ".")` (never returns an empty slice). -/
def goSplitDot (s : String) : List String :=
  (splitDot s.data).map (fun l => String.mk l)

/-- Shallow embedding of `getClusterName` (src/main.go lines 42-49). -/
def getClusterName (url : String) : Except String String :=
  if h : (goSplitDot url).length < 2 then
    .error "could not parse cluster name from URL"
  else
    .ok ((goSplitDot url).get ⟨1, by omega⟩)

/-- Command-line flags as parsed by the `flag` package: `none` means
the flag was not supplied, so its declared default applies
(src/main.go lines 213-216). -/
structure Flags where
  url : Option String
  username : Option String
  password : Option String
  rhcephPassword : Option String

/-- Outcomes of the external calls made directly by `main`:
availability of required commands; success and random suffix of
`os.CreateTemp`; success of `oc login`; the environment of
`addRHCEPHAuth`; success of the ICSP file write and apply; success of
the catalog-source file write and apply. -/
structure MainEnv where
  cmdsOk : Bool
  tempOk : Bool
  tempSuffix : String
  loginOk : Bool
  authEnv : AuthEnv
  icspWriteOk : Bool
  icspApplyOk : Bool
  catWriteOk : Bool
  catApplyOk : Bool

/-- Shallow embedding of `main` (src/main.go lines 212-276), with
`addICSP` and `addCatalogSource` inlined at their call sites (each
writes its manifest to `<cluster>-icsp.yaml` resp.
`<cluster>-catalogsource.yaml` in the working directory, then runs
`oc apply`).  Returns the process exit code and the event trace.
`flag.String` defaults are applied first: username defaults to
"kubeadmin", the required flags default to the empty string. -/
def runMain (fl : Flags) (env : MainEnv) : Nat × List Event :=
  if fl.url.getD "" == "" then (1, [Event.logError, Event.usageToStdout]) else
  if fl.password.getD "" == "" then (1, [Event.logError, Event.usageToStdout]) else
  if fl.rhcephPassword.getD "" == "" then (1, [Event.logError, Event.usageToStdout]) else
  if !env.cmdsOk then (1, [Event.checkCommands, Event.logError]) else
  match getClusterName (fl.url.getD "") with
  | .error _ => (1, [Event.checkCommands, Event.logError])
  | .ok clusterName =>
  if !env.tempOk then (1, [Event.checkCommands, Event.logError]) else
  if !env.loginOk then (1,
      [Event.checkCommands,
       Event.createFile .sysTemp (clusterName ++ "-kubeconfig-" ++ env.tempSuffix),
       Event.execLogin (fl.username.getD "kubeadmin"), Event.logError]) else
  match (addRHCEPHAuth clusterName env.authEnv).1 with
  | .error _ => (1,
      [Event.checkCommands,
       Event.createFile .sysTemp (clusterName ++ "-kubeconfig-" ++ env.tempSuffix),
       Event.execLogin (fl.username.getD "kubeadmin")]
      ++ (addRHCEPHAuth clusterName env.authEnv).2 ++ [Event.logError])
  | .ok _ =>
  if !env.icspWriteOk then (1,
      [Event.checkCommands,
       Event.createFile .sysTemp (clusterName ++ "-kubeconfig-" ++ env.tempSuffix),
       Event.execLogin (fl.username.getD "kubeadmin")]
      ++ (addRHCEPHAuth clusterName env.authEnv).2 ++ [Event.logError]) else
  if !env.icspApplyOk then (1,
      [Event.checkCommands,
       Event.createFile .sysTemp (clusterName ++ "-kubeconfig-" ++ env.tempSuffix),
       Event.execLogin (fl.username.getD "kubeadmin")]
      ++ (addRHCEPHAuth clusterName env.authEnv).2
      ++ [Event.createFile .cwd (clusterName ++ "-icsp.yaml"),
          Event.execApply (clusterName ++ "-icsp.yaml"), Event.logError]) else
  if !env.catWriteOk then (1,
      [Event.checkCommands,
       Event.createFile .sysTemp (clusterName ++ "-kubeconfig-" ++ env.tempSuffix),
       Event.execLogin (fl.username.getD "kubeadmin")]
      ++ (addRHCEPHAuth clusterName env.authEnv).2
      ++ [Event.createFile .cwd (clusterName ++ "-icsp.yaml"),
          Event.execApply (clusterName ++ "-icsp.yaml"), Event.logError]) else
  if !env.catApplyOk then (1,
      [Event.checkCommands,
       Event.createFile .sysTemp (clusterName ++ "-kubeconfig-" ++ env.tempSuffix),
       Event.execLogin (fl.username.getD "kubeadmin")]
      ++ (addRHCEPHAuth clusterName env.authEnv).2
      ++ [Event.createFile .cwd (clusterName ++ "-icsp.yaml"),
          Event.execApply (clusterName ++ "-icsp.yaml"),
          Event.createFile .cwd (clusterName ++ "-catalogsource.yaml"),
          Event.execApply (clusterName ++ "-catalogsource.yaml"), Event.logError]) else
  (0,
      [Event.checkCommands,
       Event.createFile .sysTemp (clusterName ++ "-kubeconfig-" ++ env.tempSuffix),
       Event.execLogin (fl.username.getD "kubeadmin")]
      ++ (addRHCEPHAuth clusterName env.authEnv).2
      ++ [Event.createFile .cwd (clusterName ++ "-icsp.yaml"),
          Event.execApply (clusterName ++ "-icsp.yaml"),
          Event.createFile .cwd (clusterName ++ "-catalogsource.yaml"),
          Event.execApply (clusterName ++ "-catalogsource.yaml")])

/-- A one-entry pull secret for registry.redhat.io, used as a concrete
input in several witnesses. -/
def psFields1 : List (String × JSON) :=
  [("auths", JSON.obj [("registry.redhat.io", JSON.str "a")])]

def psDoc1 : Option JSON := some (JSON.obj psFields1)

/-- The expected jq merge result for psDoc1 plus the rhceph-dev entry. -/
def mergedFieldsOk : List (String × JSON) :=
  [("auths", JSON.obj [("registry.redhat.io", JSON.str "a"),
                       ("quay.io/rhceph-dev", JSON.str "b")])]

def mergedDocOk : Option JSON := some (JSON.obj mergedFieldsOk)

/-- Environment of a fully successful, exactly-additive merge. -/
def envAdditive : AuthEnv := ⟨true, psDoc1, true, true, true, mergedDocOk, true, true, true, none⟩

/-- Environment in which jq returns a document with an unchanged auth
count, so the count verification fails. -/
def envMismatch : AuthEnv := ⟨true, psDoc1, true, true, true, psDoc1, true, true, true, none⟩

/-- Pull secret whose auths maps the target registry to JSON null. -/
def psNullFields : List (String × JSON) :=
  [("auths", JSON.obj [("quay.io/rhceph-dev", JSON.null)])]

def psNullDoc : Option JSON := some (JSON.obj psNullFields)

/-- Environment whose pull secret binds the target key to null and
whose registry login fails. -/
def envNullKey : AuthEnv := ⟨true, psNullDoc, true, false, true, none, true, true, true, none⟩

/-- Pull secret already holding a credential for the target registry. -/
def psPresentFields : List (String × JSON) :=
  [("auths", JSON.obj [("quay.io/rhceph-dev", JSON.str "x")])]

def psPresentDoc : Option JSON := some (JSON.obj psPresentFields)

/-- Environment whose pull secret already holds the target credential;
all later external calls are marked failing to show they are unused. -/
def envPresent : AuthEnv := ⟨true, psPresentDoc, true, false, false, none, false, false, false, none⟩

/-- Environment whose pull secret payload is not a JSON object. -/
def envMalformed : AuthEnv := ⟨true, some (JSON.arr []), true, true, true, none, true, true, true, none⟩

/-- Flags of the worked example from the README. -/
def flW : Flags := ⟨some "api.cluster.example.com:6443", none, some "pw", some "rp"⟩

/-- Flags with the required url flag missing. -/
def flMissing : Flags := ⟨none, none, some "pw", some "rp"⟩

/-- Fully successful main environment over envAdditive. -/
def envW : MainEnv := ⟨true, true, "abc123", true, envAdditive, true, true, true, true⟩

/-- Main environment whose cluster login fails. -/
def envLoginFail : MainEnv := ⟨true, true, "abc123", false, envAdditive, true, true, true, true⟩

/-- Selects creations of files in the working directory. -/
def isCwdCreate : Event → Bool
  | .createFile .cwd _ => true
  | _ => false

/-- Claim C5: getClusterName returns the second dot-separated segment
of the URL when there are at least two segments, and a parse error
otherwise. -/
theorem getClusterName_spec (url : String) :
    getClusterName url =
      match (goSplitDot url).get? 1 with
      | some seg => .ok seg
      | none => .error "could not parse cluster name from URL" := by
  unfold getClusterName
  by_cases h : (goSplitDot url).length < 2
  · simp only [h, dif_pos]
    have hn : (goSplitDot url).get? 1 = none := by
      apply List.get?_eq_none.mpr
      omega
    rw [hn]
  · simp only [h, dif_neg, not_false_iff]
    have hlt : 1 < (goSplitDot url).length := by omega
    rw [List.get?_eq_get hlt]

theorem getAuths_eq_some (ps a : List (String × JSON)) (h : getAuths ps = some a) :
    ∃ fs, lookupField ps "auths" = some (JSON.obj fs) ∧ a = goMapOf fs := by
  unfold getAuths at h
  cases hl : lookupField ps "auths" with
  | none => rw [hl] at h; exact absurd h (by simp)
  | some v =>
    cases v with
    | obj fs => exact ⟨fs, rfl, by rw [hl] at h; simpa using h.symm⟩
    | null => rw [hl] at h; exact absurd h (by simp)
    | bool b => rw [hl] at h; exact absurd h (by simp)
    | num n => rw [hl] at h; exact absurd h (by simp)
    | str s => rw [hl] at h; exact absurd h (by simp)
    | arr xs => rw [hl] at h; exact absurd h (by simp)

theorem authsCountOf_eq_some (d : Option JSON) (n : Nat) (h : authsCountOf d = some n) :
    ∃ ps a, unmarshalTop d = some ps ∧ getAuths ps = some a ∧ a.length = n := by
  unfold authsCountOf at h
  cases hu : unmarshalTop d with
  | none => simp [hu] at h
  | some ps =>
    simp only [hu] at h
    cases hg : getAuths ps with
    | none => simp [hg] at h
    | some a =>
      simp only [hg, Option.map_some'] at h
      exact ⟨ps, a, rfl, hg, by simpa using h⟩

theorem goIsNil_some_ne_null (v : JSON) (h : v ≠ JSON.null) :
    goIsNil (some v) = false := by
  cases v with
  | null => exact absurd rfl h
  | bool b => rfl
  | num n => rfl
  | str s => rfl
  | arr xs => rfl
  | obj fs => rfl

/-- Claim C1: when the target registry key is absent from the auths
mapping, addRHCEPHAuth succeeds only if the merged document's auths
entry count equals the original count plus exactly one, and any other
merged count produces the count-mismatch error. -/
theorem addRHCEPHAuth_count_check (cl : String) (env : AuthEnv)
    (ps auths : List (String × JSON))
    (hget : env.getSecretOk = true) (hw : env.writeSecretFileOk = true)
    (hps : unmarshalTop env.pullSecretContent = some ps)
    (ha : getAuths ps = some auths)
    (habs : lookupField auths "quay.io/rhceph-dev" = none) :
    ((addRHCEPHAuth cl env).1 = .ok () →
        authsCountOf env.jqOutput = some (auths.length + 1))
    ∧ (∀ n, env.registryLoginOk = true → env.jqOk = true →
        env.writeMergedFileOk = true → env.setDataOk = true → env.reGetOk = true →
        authsCountOf env.jqOutput = some n → n ≠ auths.length + 1 →
        (addRHCEPHAuth cl env).1 = .error .countMismatch) := by
  obtain ⟨fs, hlook, hgm⟩ := getAuths_eq_some ps auths ha
  subst hgm
  constructor
  · intro hok
    simp only [addRHCEPHAuth, hget, hw, hps, ha, habs, hlook, goIsNil,
      Bool.not_true, Bool.not_false, if_false, if_true] at hok
    cases hrl : env.registryLoginOk
    · simp [hrl] at hok
    cases hjq : env.jqOk
    · simp [hrl, hjq] at hok
    cases hwm : env.writeMergedFileOk
    · simp [hrl, hjq, hwm] at hok
    cases hsd : env.setDataOk
    · simp [hrl, hjq, hwm, hsd] at hok
    cases hrg : env.reGetOk
    · simp [hrl, hjq, hwm, hsd, hrg] at hok
    cases hu : unmarshalTop env.jqOutput with
    | none => simp [hrl, hjq, hwm, hsd, hrg, hu] at hok
    | some nps =>
    cases hg : getAuths nps with
    | none => simp [hrl, hjq, hwm, hsd, hrg, hu, hg] at hok
    | some na =>
    by_cases hne : na.length = (goMapOf fs).length + 1
    · simp [authsCountOf, hu, hg, hne]
    · simp [hrl, hjq, hwm, hsd, hrg, hu, hg, hne] at hok
  · intro n hrl hjq hwm hsd hrg hcount hne
    obtain ⟨nps, na, hu, hg, hlen⟩ := authsCountOf_eq_some env.jqOutput n hcount
    have hbne : (na.length != (goMapOf fs).length + 1) = true := by
      simp only [bne_iff_ne, ne_eq]
      omega
    simp [addRHCEPHAuth, hget, hw, hps, ha, habs, hlook, goIsNil,
      hrl, hjq, hwm, hsd, hrg, hu, hg, hbne]

theorem addRHCEPHAuth_mismatch_shape (cl : String) (env : AuthEnv)
    (h : (addRHCEPHAuth cl env).1 = .error .countMismatch) :
    ∃ t, (addRHCEPHAuth cl env).2 = t ++ [Event.execSetSecret, Event.execGetSecret]
      ∧ Event.execGetSecret ∈ t := by
  cases h1 : env.getSecretOk
  · simp [addRHCEPHAuth, h1] at h
  cases h2 : env.writeSecretFileOk
  · simp [addRHCEPHAuth, h1, h2] at h
  cases h3 : unmarshalTop env.pullSecretContent with
  | none => simp [addRHCEPHAuth, h1, h2, h3] at h
  | some ps =>
  cases h4 : getAuths ps with
  | none => simp [addRHCEPHAuth, h1, h2, h3, h4] at h
  | some auths =>
  cases h5 : goIsNil (lookupField ps "auths")
  case true => simp [addRHCEPHAuth, h1, h2, h3, h4, h5] at h
  cases h6 : goIsNil (lookupField auths "quay.io/rhceph-dev")
  case false => simp [addRHCEPHAuth, h1, h2, h3, h4, h5, h6] at h
  cases h7 : env.registryLoginOk
  · simp [addRHCEPHAuth, h1, h2, h3, h4, h5, h6, h7] at h
  cases h8 : env.jqOk
  · simp [addRHCEPHAuth, h1, h2, h3, h4, h5, h6, h7, h8] at h
  cases h9 : env.writeMergedFileOk
  · simp [addRHCEPHAuth, h1, h2, h3, h4, h5, h6, h7, h8, h9] at h
  cases h10 : env.setDataOk
  · simp [addRHCEPHAuth, h1, h2, h3, h4, h5, h6, h7, h8, h9, h10] at h
  cases h11 : env.reGetOk
  · simp [addRHCEPHAuth, h1, h2, h3, h4, h5, h6, h7, h8, h9, h10, h11] at h
  refine ⟨[Event.execGetSecret, Event.createFile .cwd (cl ++ "-pull-secret.json"),
    Event.execRegistryLogin, Event.createFile .cwd (cl ++ "-append-pull-secret.json"),
    Event.execJq, Event.createFile .cwd (cl ++ "-new-pull-secret.json")], ?_, by simp⟩
  cases h12 : unmarshalTop env.jqOutput with
  | none => simp [addRHCEPHAuth, h1, h2, h3, h4, h5, h6, h7, h8, h9, h10, h11, h12]
  | some nps =>
  cases h13 : getAuths nps with
  | none => simp [addRHCEPHAuth, h1, h2, h3, h4, h5, h6, h7, h8, h9, h10, h11, h12, h13]
  | some na =>
  simp [addRHCEPHAuth, h1, h2, h3, h4, h5, h6, h7, h8, h9, h10, h11, h12, h13]
  split <;> simp

/-- Claim C2 counterexample: a run in which every external call succeeds
but jq produces a document with an unchanged auth count ends in the
count-mismatch error even though the cluster secret was already
overwritten (the oc set data event is in the trace). -/
theorem write_before_verify_cex :
    (addRHCEPHAuth "cluster" envMismatch).1 = .error .countMismatch
    ∧ Event.execSetSecret ∈ (addRHCEPHAuth "cluster" envMismatch).2 :=
  ⟨rfl, by decide⟩

/-- Claim C2 (amended): the cluster write precedes the count
verification; whenever the verification fails with the count-mismatch
error, the merged document has already been pushed to the cluster
secret. -/
theorem write_precedes_verify (cl : String) (env : AuthEnv)
    (h : (addRHCEPHAuth cl env).1 = .error .countMismatch) :
    Event.execSetSecret ∈ (addRHCEPHAuth cl env).2 := by
  obtain ⟨t, ht, _⟩ := addRHCEPHAuth_mismatch_shape cl env h
  rw [ht]
  simp

/-- Witness for write_precedes_verify at a concrete environment. -/
theorem write_precedes_verify_witness :
    Event.execSetSecret ∈ (addRHCEPHAuth "cluster" envMismatch).2 :=
  write_precedes_verify "cluster" envMismatch rfl

/-- Claim C3 counterexample: a pull secret whose auths mapping contains
the key "quay.io/rhceph-dev" (bound to JSON null) is not treated as a
no-op: the registry login is invoked and the step does not succeed. -/
theorem noop_check_null_cex :
    lookupField (goMapOf [("quay.io/rhceph-dev", JSON.null)]) "quay.io/rhceph-dev"
        = some JSON.null
    ∧ (addRHCEPHAuth "cluster" envNullKey).1 = .error .registryLoginFailed
    ∧ Event.execRegistryLogin ∈ (addRHCEPHAuth "cluster" envNullKey).2 :=
  ⟨rfl, rfl, by decide⟩

/-- Claim C3 (amended): when the auths mapping binds the key
"quay.io/rhceph-dev" to a non-null value, the credential-merge step
returns success as a no-op: no registry login, no jq merge and no
cluster write appear in the trace. -/
theorem noop_when_key_bound_nonnull (cl : String) (env : AuthEnv)
    (ps auths : List (String × JSON)) (v : JSON)
    (hget : env.getSecretOk = true) (hw : env.writeSecretFileOk = true)
    (hps : unmarshalTop env.pullSecretContent = some ps)
    (ha : getAuths ps = some auths)
    (hv : lookupField auths "quay.io/rhceph-dev" = some v)
    (hnn : v ≠ JSON.null) :
    (addRHCEPHAuth cl env).1 = .ok ()
    ∧ Event.execRegistryLogin ∉ (addRHCEPHAuth cl env).2
    ∧ Event.execJq ∉ (addRHCEPHAuth cl env).2
    ∧ Event.execSetSecret ∉ (addRHCEPHAuth cl env).2 := by
  obtain ⟨fs, hlook, hgm⟩ := getAuths_eq_some ps auths ha
  subst hgm
  have hnil := goIsNil_some_ne_null v hnn
  simp [addRHCEPHAuth, hget, hw, hps, ha, hv, hlook, goIsNil, hnil]

/-- Witness for noop_when_key_bound_nonnull at a concrete environment. -/
theorem noop_when_key_bound_nonnull_witness :
    (addRHCEPHAuth "cluster" envPresent).1 = .ok ()
    ∧ Event.execRegistryLogin ∉ (addRHCEPHAuth "cluster" envPresent).2
    ∧ Event.execJq ∉ (addRHCEPHAuth "cluster" envPresent).2
    ∧ Event.execSetSecret ∉ (addRHCEPHAuth "cluster" envPresent).2 :=
  noop_when_key_bound_nonnull "cluster" envPresent (goMapOf psPresentFields)
    (goMapOf [("quay.io/rhceph-dev", JSON.str "x")]) (JSON.str "x")
    rfl rfl rfl rfl rfl (by simp)

/-- Claim C4: a pull secret that is not a JSON object, or whose auths
field is missing or not an object, makes the credential-merge step fail
with a malformed-document error (the JSON-parse or invalid-format
error) without ever invoking the registry login. -/
theorem malformed_no_registry_login (cl : String) (env : AuthEnv)
    (hget : env.getSecretOk = true) (hw : env.writeSecretFileOk = true)
    (hbad : unmarshalTop env.pullSecretContent = none
        ∨ ∃ ps, unmarshalTop env.pullSecretContent = some ps ∧ getAuths ps = none) :
    (∃ e, (addRHCEPHAuth cl env).1 = .error e
        ∧ (e = .parseFailed ∨ e = .invalidFormat))
    ∧ Event.execRegistryLogin ∉ (addRHCEPHAuth cl env).2 := by
  rcases hbad with hnone | ⟨ps, hps, hga⟩
  · refine ⟨⟨.parseFailed, ?_, Or.inl rfl⟩, ?_⟩ <;>
      simp [addRHCEPHAuth, hget, hw, hnone]
  · refine ⟨⟨.invalidFormat, ?_, Or.inr rfl⟩, ?_⟩ <;>
      simp [addRHCEPHAuth, hget, hw, hps, hga]

/-- Witness for malformed_no_registry_login at a concrete environment. -/
theorem malformed_no_registry_login_witness :
    (∃ e, (addRHCEPHAuth "cluster" envMalformed).1 = .error e
        ∧ (e = .parseFailed ∨ e = .invalidFormat))
    ∧ Event.execRegistryLogin ∉ (addRHCEPHAuth "cluster" envMalformed).2 :=
  malformed_no_registry_login "cluster" envMalformed rfl rfl (Or.inl rfl)

/-- Claim C10: a pull secret whose auths mapping binds
"quay.io/rhceph-dev" to JSON null is treated as if the key were
absent: the no-op branch is skipped, the registry login is invoked,
and when it succeeds the jq merge is run. -/
theorem null_auth_treated_absent (cl : String) (env : AuthEnv)
    (ps auths : List (String × JSON))
    (hget : env.getSecretOk = true) (hw : env.writeSecretFileOk = true)
    (hps : unmarshalTop env.pullSecretContent = some ps)
    (ha : getAuths ps = some auths)
    (hnull : lookupField auths "quay.io/rhceph-dev" = some JSON.null) :
    Event.execRegistryLogin ∈ (addRHCEPHAuth cl env).2
    ∧ (env.registryLoginOk = true → Event.execJq ∈ (addRHCEPHAuth cl env).2) := by
  obtain ⟨fs, hlook, hgm⟩ := getAuths_eq_some ps auths ha
  subst hgm
  constructor
  · simp only [addRHCEPHAuth, hget, hw, hps, ha, hnull, hlook, goIsNil,
      Bool.not_true, Bool.not_false, if_false, if_true]
    repeat' split
    all_goals simp_all
  · intro hrl
    simp only [addRHCEPHAuth, hget, hw, hps, ha, hnull, hlook, goIsNil, hrl,
      Bool.not_true, Bool.not_false, if_false, if_true]
    repeat' split
    all_goals simp_all

/-- Witness for null_auth_treated_absent at a concrete environment. -/
theorem null_auth_treated_absent_witness :
    Event.execRegistryLogin ∈ (addRHCEPHAuth "cluster" envNullKey).2 :=
  (null_auth_treated_absent "cluster" envNullKey (goMapOf psNullFields)
    (goMapOf [("quay.io/rhceph-dev", JSON.null)])
    rfl rfl rfl rfl rfl).1

/-- Witness for addRHCEPHAuth_count_check at a concrete environment. -/
theorem addRHCEPHAuth_count_check_witness :
    (addRHCEPHAuth "cluster" envMismatch).1 = .error .countMismatch :=
  (addRHCEPHAuth_count_check "cluster" envMismatch (goMapOf psFields1)
    (goMapOf [("registry.redhat.io", JSON.str "a")])
    rfl rfl rfl rfl rfl).2 1 rfl rfl rfl rfl rfl rfl (by decide)

theorem addRHCEPHAuth_trace_events (cl : String) (env : AuthEnv) (e : Event)
    (he : e ∈ (addRHCEPHAuth cl env).2) :
    e = Event.execGetSecret
    ∨ e = Event.createFile .cwd (cl ++ "-pull-secret.json")
    ∨ e = Event.execRegistryLogin
    ∨ e = Event.createFile .cwd (cl ++ "-append-pull-secret.json")
    ∨ e = Event.execJq
    ∨ e = Event.createFile .cwd (cl ++ "-new-pull-secret.json")
    ∨ e = Event.execSetSecret := by
  cases h1 : env.getSecretOk
  · simp [addRHCEPHAuth, h1] at he
    tauto
  cases h2 : env.writeSecretFileOk
  · simp [addRHCEPHAuth, h1, h2] at he
    tauto
  cases h3 : unmarshalTop env.pullSecretContent with
  | none =>
    simp [addRHCEPHAuth, h1, h2, h3] at he
    tauto
  | some ps =>
  cases h4 : getAuths ps with
  | none =>
    simp [addRHCEPHAuth, h1, h2, h3, h4] at he
    tauto
  | some auths =>
  cases h5 : goIsNil (lookupField ps "auths")
  case true =>
    simp [addRHCEPHAuth, h1, h2, h3, h4, h5] at he
    tauto
  cases h6 : goIsNil (lookupField auths "quay.io/rhceph-dev")
  case false =>
    simp [addRHCEPHAuth, h1, h2, h3, h4, h5, h6] at he
    tauto
  cases h7 : env.registryLoginOk
  · simp [addRHCEPHAuth, h1, h2, h3, h4, h5, h6, h7] at he
    tauto
  cases h8 : env.jqOk
  · simp [addRHCEPHAuth, h1, h2, h3, h4, h5, h6, h7, h8] at he
    tauto
  cases h9 : env.writeMergedFileOk
  · simp [addRHCEPHAuth, h1, h2, h3, h4, h5, h6, h7, h8, h9] at he
    tauto
  cases h10 : env.setDataOk
  · simp [addRHCEPHAuth, h1, h2, h3, h4, h5, h6, h7, h8, h9, h10] at he
    tauto
  cases h11 : env.reGetOk
  · simp [addRHCEPHAuth, h1, h2, h3, h4, h5, h6, h7, h8, h9, h10, h11] at he
    tauto
  cases h12 : unmarshalTop env.jqOutput with
  | none =>
    simp [addRHCEPHAuth, h1, h2, h3, h4, h5, h6, h7, h8, h9, h10, h11, h12] at he
    tauto
  | some nps =>
  cases h13 : getAuths nps with
  | none =>
    simp [addRHCEPHAuth, h1, h2, h3, h4, h5, h6, h7, h8, h9, h10, h11, h12, h13] at he
    tauto
  | some na =>
  by_cases h14 : (na.length != auths.length + 1) = true
  · simp [addRHCEPHAuth, h1, h2, h3, h4, h5, h6, h7, h8, h9, h10, h11, h12, h13, h14] at he
    tauto
  · simp only [Bool.not_eq_true] at h14
    simp [addRHCEPHAuth, h1, h2, h3, h4, h5, h6, h7, h8, h9, h10, h11, h12, h13, h14] at he
    tauto

theorem addRHCEPHAuth_no_execLogin (cl : String) (env : AuthEnv) (u : String) :
    Event.execLogin u ∉ (addRHCEPHAuth cl env).2 := by
  intro hmem
  rcases addRHCEPHAuth_trace_events cl env _ hmem with h | h | h | h | h | h | h <;> simp at h

theorem addRHCEPHAuth_no_execApply (cl : String) (env : AuthEnv) (f : String) :
    Event.execApply f ∉ (addRHCEPHAuth cl env).2 := by
  intro hmem
  rcases addRHCEPHAuth_trace_events cl env _ hmem with h | h | h | h | h | h | h <;> simp at h

theorem cat_ne_icsp (s : String) : ¬(s ++ "-catalogsource.yaml" = s ++ "-icsp.yaml") := by
  intro h
  have hd := congrArg String.data h
  simp only [String.data_append] at hd
  exact absurd (List.append_cancel_left hd) (by decide)

theorem icsp_ne_cat (s : String) : ¬(s ++ "-icsp.yaml" = s ++ "-catalogsource.yaml") := by
  intro h
  have hd := congrArg String.data h
  simp only [String.data_append] at hd
  exact absurd (List.append_cancel_left hd) (by decide)

theorem addRHCEPHAuth_check_iff (cl : String) (env : AuthEnv)
    (ps auths : List (String × JSON))
    (hget : env.getSecretOk = true) (hw : env.writeSecretFileOk = true)
    (hps : unmarshalTop env.pullSecretContent = some ps)
    (ha : getAuths ps = some auths)
    (habs : lookupField auths "quay.io/rhceph-dev" = none)
    (hrl : env.registryLoginOk = true) (hjq : env.jqOk = true)
    (hwm : env.writeMergedFileOk = true) (hsd : env.setDataOk = true)
    (hrg : env.reGetOk = true) :
    (addRHCEPHAuth cl env).1 = .ok ()
      ↔ authsCountOf env.jqOutput = some (auths.length + 1) := by
  obtain ⟨fs, hlook, hgm⟩ := getAuths_eq_some ps auths ha
  subst hgm
  cases hu : unmarshalTop env.jqOutput with
  | none =>
    simp [addRHCEPHAuth, authsCountOf, hget, hw, hps, ha, habs, hlook, goIsNil,
      hrl, hjq, hwm, hsd, hrg, hu]
  | some nps =>
  cases hg : getAuths nps with
  | none =>
    simp [addRHCEPHAuth, authsCountOf, hget, hw, hps, ha, habs, hlook, goIsNil,
      hrl, hjq, hwm, hsd, hrg, hu, hg]
  | some na =>
  by_cases hne : na.length = (goMapOf fs).length + 1
  · simp [addRHCEPHAuth, authsCountOf, hget, hw, hps, ha, habs, hlook, goIsNil,
      hrl, hjq, hwm, hsd, hrg, hu, hg, hne]
  · have hb : (na.length != (goMapOf fs).length + 1) = true := by
      simp only [bne_iff_ne, ne_eq]
      omega
    simp [addRHCEPHAuth, authsCountOf, hget, hw, hps, ha, habs, hlook, goIsNil,
      hrl, hjq, hwm, hsd, hrg, hu, hg, hb, hne]

/-- Claim C9: the verification re-reads the live cluster secret after
the push, but the entry count used by the mismatch check comes from the
locally merged document: the whole outcome is independent of the
re-read payload, a count-mismatch trace ends with the push followed by
the re-read, and success of the verification is equivalent to the
local jq output having the original count plus one. -/
theorem verify_uses_local_merge (cl : String) (env : AuthEnv) :
    (∀ c, addRHCEPHAuth cl (withReGetContent env c) = addRHCEPHAuth cl env)
    ∧ ((addRHCEPHAuth cl env).1 = .error .countMismatch →
        ∃ t, (addRHCEPHAuth cl env).2 = t ++ [Event.execSetSecret, Event.execGetSecret]
          ∧ Event.execGetSecret ∈ t)
    ∧ (∀ ps auths, env.getSecretOk = true → env.writeSecretFileOk = true →
        unmarshalTop env.pullSecretContent = some ps → getAuths ps = some auths →
        lookupField auths "quay.io/rhceph-dev" = none →
        env.registryLoginOk = true → env.jqOk = true → env.writeMergedFileOk = true →
        env.setDataOk = true → env.reGetOk = true →
        ((addRHCEPHAuth cl env).1 = .ok ()
          ↔ authsCountOf env.jqOutput = some (auths.length + 1))) := by
  refine ⟨fun c => rfl, addRHCEPHAuth_mismatch_shape cl env, ?_⟩
  intro ps auths hget hw hps ha habs hrl hjq hwm hsd hrg
  exact addRHCEPHAuth_check_iff cl env ps auths hget hw hps ha habs hrl hjq hwm hsd hrg

/-- Witness for verify_uses_local_merge at a concrete environment. -/
theorem verify_uses_local_merge_witness :
    addRHCEPHAuth "cluster" (withReGetContent envMismatch (some (JSON.str "z")))
        = addRHCEPHAuth "cluster" envMismatch
    ∧ (∃ t, (addRHCEPHAuth "cluster" envMismatch).2
          = t ++ [Event.execSetSecret, Event.execGetSecret] ∧ Event.execGetSecret ∈ t)
    ∧ ((addRHCEPHAuth "cluster" envMismatch).1 = .ok ()
        ↔ authsCountOf envMismatch.jqOutput
            = some ((goMapOf [("registry.redhat.io", JSON.str "a")]).length + 1)) :=
  ⟨(verify_uses_local_merge "cluster" envMismatch).1 (some (JSON.str "z")),
   (verify_uses_local_merge "cluster" envMismatch).2.1 rfl,
   (verify_uses_local_merge "cluster" envMismatch).2.2 (goMapOf psFields1)
     (goMapOf [("registry.redhat.io", JSON.str "a")]) rfl rfl rfl rfl rfl rfl rfl rfl rfl rfl⟩

/-- Claim C6: when any required flag is empty, main logs an error,
prints the usage message to standard output and exits 1 without
performing any other action; the login step, when reached, uses the
username flag's value, which defaults to "kubeadmin". -/
theorem main_missing_flags_usage (fl : Flags) (env : MainEnv) :
    ((fl.url.getD "" = "" ∨ fl.password.getD "" = "" ∨ fl.rhcephPassword.getD "" = "") →
        runMain fl env = (1, [Event.logError, Event.usageToStdout]))
    ∧ (∀ u, Event.execLogin u ∈ (runMain fl env).2 → u = fl.username.getD "kubeadmin") := by
  constructor
  · intro h
    by_cases h1 : fl.url.getD "" = ""
    · simp [runMain, h1]
    by_cases h2 : fl.password.getD "" = ""
    · simp [runMain, h1, h2]
    have h3 : fl.rhcephPassword.getD "" = "" := by tauto
    simp [runMain, h1, h2, h3]
  · intro u hu
    by_cases h1 : fl.url.getD "" = ""
    · simp [runMain, h1] at hu
    by_cases h2 : fl.password.getD "" = ""
    · simp [runMain, h1, h2] at hu
    by_cases h3 : fl.rhcephPassword.getD "" = ""
    · simp [runMain, h1, h2, h3] at hu
    cases h4 : env.cmdsOk
    · simp [runMain, h1, h2, h3, h4] at hu
    cases h5 : getClusterName (fl.url.getD "") with
    | error e => simp [runMain, h1, h2, h3, h4, h5] at hu
    | ok cl =>
    cases h6 : env.tempOk
    · simp [runMain, h1, h2, h3, h4, h5, h6] at hu
    cases h7 : env.loginOk
    · simp [runMain, h1, h2, h3, h4, h5, h6, h7] at hu
      exact hu
    cases h8 : (addRHCEPHAuth cl env.authEnv).1 with
    | error e =>
      simp [runMain, h1, h2, h3, h4, h5, h6, h7, h8, addRHCEPHAuth_no_execLogin] at hu
      exact hu
    | ok w =>
    cases h9 : env.icspWriteOk
    · simp [runMain, h1, h2, h3, h4, h5, h6, h7, h8, h9, addRHCEPHAuth_no_execLogin] at hu
      exact hu
    cases h10 : env.icspApplyOk
    · simp [runMain, h1, h2, h3, h4, h5, h6, h7, h8, h9, h10, addRHCEPHAuth_no_execLogin] at hu
      exact hu
    cases h11 : env.catWriteOk
    · simp [runMain, h1, h2, h3, h4, h5, h6, h7, h8, h9, h10, h11,
        addRHCEPHAuth_no_execLogin] at hu
      exact hu
    cases h12 : env.catApplyOk
    · simp [runMain, h1, h2, h3, h4, h5, h6, h7, h8, h9, h10, h11, h12,
        addRHCEPHAuth_no_execLogin] at hu
      exact hu
    simp [runMain, h1, h2, h3, h4, h5, h6, h7, h8, h9, h10, h11, h12,
      addRHCEPHAuth_no_execLogin] at hu
    exact hu

/-- Witness for main_missing_flags_usage at concrete flags. -/
theorem main_missing_flags_usage_witness :
    runMain flMissing envW = (1, [Event.logError, Event.usageToStdout]) :=
  (main_missing_flags_usage flMissing envW).1 (Or.inl rfl)

theorem take_order_helper {α : Type} (tr l1 l2 : List α) (a b : α)
    (htr : tr = l1 ++ l2) (ha : a ∈ l1) (hb : b ∉ l1) (n : Nat)
    (hbn : b ∈ tr.take n) : a ∈ tr.take n := by
  subst htr
  rw [List.take_append_eq_append_take] at hbn ⊢
  rcases List.mem_append.mp hbn with h | h
  · exact absurd (List.take_subset n l1 h) hb
  · have hk : n - l1.length ≠ 0 := by
      intro h0
      rw [h0] at h
      simp at h
    have hl : l1.length ≤ n := by omega
    refine List.mem_append.mpr (Or.inl ?_)
    rw [List.take_of_length_le hl]
    exact ha

theorem runMain_exit_codes (fl : Flags) (env : MainEnv) :
    (runMain fl env).1 = 0 ∨ (runMain fl env).1 = 1 := by
  by_cases h1 : fl.url.getD "" = ""
  · simp [runMain, h1]
  by_cases h2 : fl.password.getD "" = ""
  · simp [runMain, h1, h2]
  by_cases h3 : fl.rhcephPassword.getD "" = ""
  · simp [runMain, h1, h2, h3]
  cases h4 : env.cmdsOk
  · simp [runMain, h1, h2, h3, h4]
  cases h5 : getClusterName (fl.url.getD "") with
  | error e => simp [runMain, h1, h2, h3, h4, h5]
  | ok cl =>
  cases h6 : env.tempOk
  · simp [runMain, h1, h2, h3, h4, h5, h6]
  cases h7 : env.loginOk
  · simp [runMain, h1, h2, h3, h4, h5, h6, h7]
  cases h8 : (addRHCEPHAuth cl env.authEnv).1 with
  | error e => simp [runMain, h1, h2, h3, h4, h5, h6, h7, h8]
  | ok w =>
  cases h9 : env.icspWriteOk
  · simp [runMain, h1, h2, h3, h4, h5, h6, h7, h8, h9]
  cases h10 : env.icspApplyOk
  · simp [runMain, h1, h2, h3, h4, h5, h6, h7, h8, h9, h10]
  cases h11 : env.catWriteOk
  · simp [runMain, h1, h2, h3, h4, h5, h6, h7, h8, h9, h10, h11]
  cases h12 : env.catApplyOk
  · simp [runMain, h1, h2, h3, h4, h5, h6, h7, h8, h9, h10, h11, h12]
  simp [runMain, h1, h2, h3, h4, h5, h6, h7, h8, h9, h10, h11, h12]

theorem runMain_success (fl : Flags) (env : MainEnv) (h : (runMain fl env).1 = 0) :
    ∃ cl, getClusterName (fl.url.getD "") = .ok cl
      ∧ env.cmdsOk = true ∧ env.tempOk = true ∧ env.loginOk = true
      ∧ (addRHCEPHAuth cl env.authEnv).1 = .ok ()
      ∧ env.icspWriteOk = true ∧ env.icspApplyOk = true
      ∧ env.catWriteOk = true ∧ env.catApplyOk = true
      ∧ (runMain fl env).2 =
          [Event.checkCommands,
           Event.createFile .sysTemp (cl ++ "-kubeconfig-" ++ env.tempSuffix),
           Event.execLogin (fl.username.getD "kubeadmin")]
          ++ (addRHCEPHAuth cl env.authEnv).2
          ++ [Event.createFile .cwd (cl ++ "-icsp.yaml"),
              Event.execApply (cl ++ "-icsp.yaml"),
              Event.createFile .cwd (cl ++ "-catalogsource.yaml"),
              Event.execApply (cl ++ "-catalogsource.yaml")] := by
  by_cases h1 : fl.url.getD "" = ""
  · simp [runMain, h1] at h
  by_cases h2 : fl.password.getD "" = ""
  · simp [runMain, h1, h2] at h
  by_cases h3 : fl.rhcephPassword.getD "" = ""
  · simp [runMain, h1, h2, h3] at h
  cases h4 : env.cmdsOk
  · simp [runMain, h1, h2, h3, h4] at h
  cases h5 : getClusterName (fl.url.getD "") with
  | error e => simp [runMain, h1, h2, h3, h4, h5] at h
  | ok cl =>
  cases h6 : env.tempOk
  · simp [runMain, h1, h2, h3, h4, h5, h6] at h
  cases h7 : env.loginOk
  · simp [runMain, h1, h2, h3, h4, h5, h6, h7] at h
  cases h8 : (addRHCEPHAuth cl env.authEnv).1 with
  | error e => simp [runMain, h1, h2, h3, h4, h5, h6, h7, h8] at h
  | ok w =>
  cases h9 : env.icspWriteOk
  · simp [runMain, h1, h2, h3, h4, h5, h6, h7, h8, h9] at h
  cases h10 : env.icspApplyOk
  · simp [runMain, h1, h2, h3, h4, h5, h6, h7, h8, h9, h10] at h
  cases h11 : env.catWriteOk
  · simp [runMain, h1, h2, h3, h4, h5, h6, h7, h8, h9, h10, h11] at h
  cases h12 : env.catApplyOk
  · simp [runMain, h1, h2, h3, h4, h5, h6, h7, h8, h9, h10, h11, h12] at h
  refine ⟨cl, rfl, rfl, rfl, rfl, ?_, rfl, rfl, rfl, rfl, ?_⟩
  · cases w
    exact h8
  · simp [runMain, h1, h2, h3, h4, h5, h6, h7, h8, h9, h10, h11, h12]

theorem runMain_login_fail (fl : Flags) (env : MainEnv) (hl : env.loginOk = false) :
    (∀ f, Event.execApply f ∉ (runMain fl env).2)
    ∧ Event.execRegistryLogin ∉ (runMain fl env).2
    ∧ Event.execJq ∉ (runMain fl env).2
    ∧ Event.execSetSecret ∉ (runMain fl env).2 := by
  by_cases h1 : fl.url.getD "" = ""
  · simp [runMain, h1]
  by_cases h2 : fl.password.getD "" = ""
  · simp [runMain, h1, h2]
  by_cases h3 : fl.rhcephPassword.getD "" = ""
  · simp [runMain, h1, h2, h3]
  cases h4 : env.cmdsOk
  · simp [runMain, h1, h2, h3, h4]
  cases h5 : getClusterName (fl.url.getD "") with
  | error e => simp [runMain, h1, h2, h3, h4, h5]
  | ok cl =>
  cases h6 : env.tempOk
  · simp [runMain, h1, h2, h3, h4, h5, h6]
  simp [runMain, h1, h2, h3, h4, h5, h6, hl]

theorem runMain_merge_fail (fl : Flags) (env : MainEnv) (cl : String) (err : AuthError)
    (hcl : getClusterName (fl.url.getD "") = .ok cl)
    (herr : (addRHCEPHAuth cl env.authEnv).1 = .error err) :
    ∀ f, Event.execApply f ∉ (runMain fl env).2 := by
  intro f
  by_cases h1 : fl.url.getD "" = ""
  · simp [runMain, h1]
  by_cases h2 : fl.password.getD "" = ""
  · simp [runMain, h1, h2]
  by_cases h3 : fl.rhcephPassword.getD "" = ""
  · simp [runMain, h1, h2, h3]
  cases h4 : env.cmdsOk
  · simp [runMain, h1, h2, h3, h4]
  cases h6 : env.tempOk
  · simp [runMain, h1, h2, h3, h4, hcl, h6]
  cases h7 : env.loginOk
  · simp [runMain, h1, h2, h3, h4, hcl, h6, h7]
  simp [runMain, h1, h2, h3, h4, hcl, h6, h7, herr, addRHCEPHAuth_no_execApply]

theorem runMain_icsp_fail (fl : Flags) (env : MainEnv) (cl : String)
    (hcl : getClusterName (fl.url.getD "") = .ok cl)
    (hia : env.icspApplyOk = false) :
    Event.execApply (cl ++ "-catalogsource.yaml") ∉ (runMain fl env).2 := by
  by_cases h1 : fl.url.getD "" = ""
  · simp [runMain, h1]
  by_cases h2 : fl.password.getD "" = ""
  · simp [runMain, h1, h2]
  by_cases h3 : fl.rhcephPassword.getD "" = ""
  · simp [runMain, h1, h2, h3]
  cases h4 : env.cmdsOk
  · simp [runMain, h1, h2, h3, h4]
  cases h6 : env.tempOk
  · simp [runMain, h1, h2, h3, h4, hcl, h6]
  cases h7 : env.loginOk
  · simp [runMain, h1, h2, h3, h4, hcl, h6, h7]
  cases h8 : (addRHCEPHAuth cl env.authEnv).1 with
  | error e => simp [runMain, h1, h2, h3, h4, hcl, h6, h7, h8, addRHCEPHAuth_no_execApply]
  | ok w =>
  cases h9 : env.icspWriteOk
  · simp [runMain, h1, h2, h3, h4, hcl, h6, h7, h8, h9, addRHCEPHAuth_no_execApply]
  simp [runMain, h1, h2, h3, h4, hcl, h6, h7, h8, h9, hia,
    addRHCEPHAuth_no_execApply, cat_ne_icsp]

theorem runMain_cat_after_icsp (fl : Flags) (env : MainEnv) (cl : String)
    (hcl : getClusterName (fl.url.getD "") = .ok cl) (n : Nat)
    (hmem : Event.execApply (cl ++ "-catalogsource.yaml") ∈ ((runMain fl env).2.take n)) :
    Event.execApply (cl ++ "-icsp.yaml") ∈ ((runMain fl env).2.take n) := by
  have hsub := List.take_subset n (runMain fl env).2 hmem
  by_cases h1 : fl.url.getD "" = ""
  · simp [runMain, h1] at hsub
  by_cases h2 : fl.password.getD "" = ""
  · simp [runMain, h1, h2] at hsub
  by_cases h3 : fl.rhcephPassword.getD "" = ""
  · simp [runMain, h1, h2, h3] at hsub
  cases h4 : env.cmdsOk
  · simp [runMain, h1, h2, h3, h4] at hsub
  cases h6 : env.tempOk
  · simp [runMain, h1, h2, h3, h4, hcl, h6] at hsub
  cases h7 : env.loginOk
  · simp [runMain, h1, h2, h3, h4, hcl, h6, h7] at hsub
  cases h8 : (addRHCEPHAuth cl env.authEnv).1 with
  | error e =>
    simp [runMain, h1, h2, h3, h4, hcl, h6, h7, h8, addRHCEPHAuth_no_execApply] at hsub
  | ok w =>
  cases h9 : env.icspWriteOk
  · simp [runMain, h1, h2, h3, h4, hcl, h6, h7, h8, h9, addRHCEPHAuth_no_execApply] at hsub
  cases h10 : env.icspApplyOk
  · simp [runMain, h1, h2, h3, h4, hcl, h6, h7, h8, h9, h10,
      addRHCEPHAuth_no_execApply, cat_ne_icsp] at hsub
  cases h11 : env.catWriteOk
  · simp [runMain, h1, h2, h3, h4, hcl, h6, h7, h8, h9, h10, h11,
      addRHCEPHAuth_no_execApply, cat_ne_icsp] at hsub
  cases h12 : env.catApplyOk
  · refine take_order_helper (runMain fl env).2
      ([Event.checkCommands,
        Event.createFile .sysTemp (cl ++ "-kubeconfig-" ++ env.tempSuffix),
        Event.execLogin (fl.username.getD "kubeadmin")]
       ++ (addRHCEPHAuth cl env.authEnv).2
       ++ [Event.createFile .cwd (cl ++ "-icsp.yaml"),
           Event.execApply (cl ++ "-icsp.yaml"),
           Event.createFile .cwd (cl ++ "-catalogsource.yaml")])
      [Event.execApply (cl ++ "-catalogsource.yaml"), Event.logError]
      _ _ ?_ ?_ ?_ n hmem
    · simp [runMain, h1, h2, h3, h4, hcl, h6, h7, h8, h9, h10, h11, h12]
    · simp
    · simp [addRHCEPHAuth_no_execApply, cat_ne_icsp]
  · refine take_order_helper (runMain fl env).2
      ([Event.checkCommands,
        Event.createFile .sysTemp (cl ++ "-kubeconfig-" ++ env.tempSuffix),
        Event.execLogin (fl.username.getD "kubeadmin")]
       ++ (addRHCEPHAuth cl env.authEnv).2
       ++ [Event.createFile .cwd (cl ++ "-icsp.yaml"),
           Event.execApply (cl ++ "-icsp.yaml"),
           Event.createFile .cwd (cl ++ "-catalogsource.yaml")])
      [Event.execApply (cl ++ "-catalogsource.yaml")]
      _ _ ?_ ?_ ?_ n hmem
    · simp [runMain, h1, h2, h3, h4, hcl, h6, h7, h8, h9, h10, h11, h12]
    · simp
    · simp [addRHCEPHAuth_no_execApply, cat_ne_icsp]

/-- Claim C7: every run exits 0 or 1; exit 0 requires every step to have
succeeded and exhibits the fixed trace order login, merge, ICSP apply,
catalog apply; a failed login prevents the merge and both applies; a
failed merge prevents both applies; a failed ICSP apply prevents the
catalog apply; and in every prefix of every trace a catalog apply is
preceded by an ICSP apply. -/
theorem main_step_order (fl : Flags) (env : MainEnv) :
    ((runMain fl env).1 = 0 ∨ (runMain fl env).1 = 1)
    ∧ ((runMain fl env).1 = 0 → ∃ cl, getClusterName (fl.url.getD "") = .ok cl
        ∧ env.cmdsOk = true ∧ env.tempOk = true ∧ env.loginOk = true
        ∧ (addRHCEPHAuth cl env.authEnv).1 = .ok ()
        ∧ env.icspWriteOk = true ∧ env.icspApplyOk = true
        ∧ env.catWriteOk = true ∧ env.catApplyOk = true
        ∧ (runMain fl env).2 =
            [Event.checkCommands,
             Event.createFile .sysTemp (cl ++ "-kubeconfig-" ++ env.tempSuffix),
             Event.execLogin (fl.username.getD "kubeadmin")]
            ++ (addRHCEPHAuth cl env.authEnv).2
            ++ [Event.createFile .cwd (cl ++ "-icsp.yaml"),
                Event.execApply (cl ++ "-icsp.yaml"),
                Event.createFile .cwd (cl ++ "-catalogsource.yaml"),
                Event.execApply (cl ++ "-catalogsource.yaml")])
    ∧ (env.loginOk = false →
        (∀ f, Event.execApply f ∉ (runMain fl env).2)
        ∧ Event.execRegistryLogin ∉ (runMain fl env).2
        ∧ Event.execJq ∉ (runMain fl env).2
        ∧ Event.execSetSecret ∉ (runMain fl env).2)
    ∧ (∀ cl err, getClusterName (fl.url.getD "") = .ok cl →
        (addRHCEPHAuth cl env.authEnv).1 = .error err →
        ∀ f, Event.execApply f ∉ (runMain fl env).2)
    ∧ (∀ cl, getClusterName (fl.url.getD "") = .ok cl → env.icspApplyOk = false →
        Event.execApply (cl ++ "-catalogsource.yaml") ∉ (runMain fl env).2)
    ∧ (∀ cl, getClusterName (fl.url.getD "") = .ok cl → ∀ n,
        Event.execApply (cl ++ "-catalogsource.yaml") ∈ ((runMain fl env).2.take n) →
        Event.execApply (cl ++ "-icsp.yaml") ∈ ((runMain fl env).2.take n)) :=
  ⟨runMain_exit_codes fl env,
   runMain_success fl env,
   runMain_login_fail fl env,
   fun cl err hcl herr => runMain_merge_fail fl env cl err hcl herr,
   fun cl hcl hia => runMain_icsp_fail fl env cl hcl hia,
   fun cl hcl n hmem => runMain_cat_after_icsp fl env cl hcl n hmem⟩

/-- Witness for main_step_order at concrete flags and environments. -/
theorem main_step_order_witness :
    ((runMain flW envW).1 = 0 ∨ (runMain flW envW).1 = 1)
    ∧ Event.execApply "x" ∉ (runMain flW envLoginFail).2
    ∧ Event.execApply ("cluster" ++ "-icsp.yaml") ∈ ((runMain flW envW).2.take 15) :=
  ⟨(main_step_order flW envW).1,
   ((main_step_order flW envLoginFail).2.2.1 rfl).1 "x",
   (main_step_order flW envW).2.2.2.2.2 "cluster" rfl 15 (by decide)⟩

theorem addRHCEPHAuth_success_trace (cl : String) (env : AuthEnv)
    (ps auths : List (String × JSON))
    (hget : env.getSecretOk = true) (hw : env.writeSecretFileOk = true)
    (hps : unmarshalTop env.pullSecretContent = some ps)
    (ha : getAuths ps = some auths)
    (habs : lookupField auths "quay.io/rhceph-dev" = none)
    (hrl : env.registryLoginOk = true) (hjq : env.jqOk = true)
    (hwm : env.writeMergedFileOk = true) (hsd : env.setDataOk = true)
    (hrg : env.reGetOk = true) :
    (addRHCEPHAuth cl env).2 =
      [Event.execGetSecret, Event.createFile .cwd (cl ++ "-pull-secret.json"),
       Event.execRegistryLogin, Event.createFile .cwd (cl ++ "-append-pull-secret.json"),
       Event.execJq, Event.createFile .cwd (cl ++ "-new-pull-secret.json"),
       Event.execSetSecret, Event.execGetSecret] := by
  obtain ⟨fs, hlook, hgm⟩ := getAuths_eq_some ps auths ha
  subst hgm
  cases hu : unmarshalTop env.jqOutput with
  | none =>
    simp [addRHCEPHAuth, hget, hw, hps, ha, habs, hlook, goIsNil,
      hrl, hjq, hwm, hsd, hrg, hu]
  | some nps =>
  cases hg : getAuths nps with
  | none =>
    simp [addRHCEPHAuth, hget, hw, hps, ha, habs, hlook, goIsNil,
      hrl, hjq, hwm, hsd, hrg, hu, hg]
  | some na =>
  by_cases hne : (na.length != (goMapOf fs).length + 1) = true
  · simp [addRHCEPHAuth, hget, hw, hps, ha, habs, hlook, goIsNil,
      hrl, hjq, hwm, hsd, hrg, hu, hg, hne]
  · simp only [Bool.not_eq_true] at hne
    simp [addRHCEPHAuth, hget, hw, hps, ha, habs, hlook, goIsNil,
      hrl, hjq, hwm, hsd, hrg, hu, hg, hne]

/-- Claim C8 counterexample: in a fully successful run with cluster
name "cluster" and temp suffix "abc123", the files created in the
working directory are exactly the five scratch files, none of them
matching cluster-kubeconfig-*, while the kubeconfig is created in the
system temporary directory (os.CreateTemp with an empty dir). -/
theorem kubeconfig_dir_cex :
    (runMain flW envW).2.filter isCwdCreate =
      [Event.createFile .cwd "cluster-pull-secret.json",
       Event.createFile .cwd "cluster-append-pull-secret.json",
       Event.createFile .cwd "cluster-new-pull-secret.json",
       Event.createFile .cwd "cluster-icsp.yaml",
       Event.createFile .cwd "cluster-catalogsource.yaml"]
    ∧ Event.createFile .sysTemp "cluster-kubeconfig-abc123" ∈ (runMain flW envW).2 := by
  exact ⟨by decide, by decide⟩

/-- Claim C8 (amended): in a run whose preconditions hold and whose
merge path completes, the session-handle kubeconfig file is created in
the system temporary directory with a name of the form
cluster-kubeconfig-*, and the five per-run scratch files
cluster-pull-secret.json, cluster-append-pull-secret.json,
cluster-new-pull-secret.json, cluster-icsp.yaml and
cluster-catalogsource.yaml are created in the current working
directory. -/
theorem scratch_file_layout (fl : Flags) (env : MainEnv) (cl : String)
    (ps auths : List (String × JSON))
    (h1 : ¬fl.url.getD "" = "") (h2 : ¬fl.password.getD "" = "")
    (h3 : ¬fl.rhcephPassword.getD "" = "")
    (h4 : env.cmdsOk = true)
    (hcl : getClusterName (fl.url.getD "") = .ok cl)
    (h6 : env.tempOk = true) (h7 : env.loginOk = true)
    (hget : env.authEnv.getSecretOk = true) (hw : env.authEnv.writeSecretFileOk = true)
    (hps : unmarshalTop env.authEnv.pullSecretContent = some ps)
    (ha : getAuths ps = some auths)
    (habs : lookupField auths "quay.io/rhceph-dev" = none)
    (hrl : env.authEnv.registryLoginOk = true) (hjq : env.authEnv.jqOk = true)
    (hwm : env.authEnv.writeMergedFileOk = true) (hsd : env.authEnv.setDataOk = true)
    (hrg : env.authEnv.reGetOk = true)
    (hcnt : (addRHCEPHAuth cl env.authEnv).1 = .ok ())
    (h9 : env.icspWriteOk = true) (h10 : env.icspApplyOk = true)
    (h11 : env.catWriteOk = true) :
    Event.createFile .sysTemp (cl ++ "-kubeconfig-" ++ env.tempSuffix) ∈ (runMain fl env).2
    ∧ Event.createFile .cwd (cl ++ "-pull-secret.json") ∈ (runMain fl env).2
    ∧ Event.createFile .cwd (cl ++ "-append-pull-secret.json") ∈ (runMain fl env).2
    ∧ Event.createFile .cwd (cl ++ "-new-pull-secret.json") ∈ (runMain fl env).2
    ∧ Event.createFile .cwd (cl ++ "-icsp.yaml") ∈ (runMain fl env).2
    ∧ Event.createFile .cwd (cl ++ "-catalogsource.yaml") ∈ (runMain fl env).2 := by
  have htr := addRHCEPHAuth_success_trace cl env.authEnv ps auths
    hget hw hps ha habs hrl hjq hwm hsd hrg
  cases h12 : env.catApplyOk
  · simp [runMain, h1, h2, h3, h4, hcl, h6, h7, hcnt, h9, h10, h11, h12, htr]
  · simp [runMain, h1, h2, h3, h4, hcl, h6, h7, hcnt, h9, h10, h11, h12, htr]

/-- Witness for scratch_file_layout at a concrete environment. -/
theorem scratch_file_layout_witness :
    Event.createFile .sysTemp ("cluster" ++ "-kubeconfig-" ++ envW.tempSuffix)
        ∈ (runMain flW envW).2
    ∧ Event.createFile .cwd ("cluster" ++ "-pull-secret.json") ∈ (runMain flW envW).2
    ∧ Event.createFile .cwd ("cluster" ++ "-append-pull-secret.json") ∈ (runMain flW envW).2
    ∧ Event.createFile .cwd ("cluster" ++ "-new-pull-secret.json") ∈ (runMain flW envW).2
    ∧ Event.createFile .cwd ("cluster" ++ "-icsp.yaml") ∈ (runMain flW envW).2
    ∧ Event.createFile .cwd ("cluster" ++ "-catalogsource.yaml") ∈ (runMain flW envW).2 :=
  scratch_file_layout flW envW "cluster" (goMapOf psFields1)
    (goMapOf [("registry.redhat.io", JSON.str "a")])
    (by decide) (by decide) (by decide) rfl (by rfl) rfl rfl
    rfl rfl rfl rfl rfl rfl rfl rfl rfl rfl (by rfl) rfl rfl rfl
